import Mathlib

set_option maxRecDepth 4000

/-
Verification development for the NL-to-SQL database assistant
(single source file streamlitApp.py).  The Python code is shallowly
embedded: strings are handled as lists of characters, the remote
Supabase client and the Gemini generation endpoint are oracles passed
in as function-valued parameters, and every regular-expression match
of the source is hand-compiled into a deterministic scanner that
mirrors the engine's leftmost / greedy / lazy semantics on the
relevant patterns.  Character classes model the ASCII fragment of
Python's str methods and of re's \s, \w, \d.
-/

/-- Characters matched by the regex class \s (ASCII fragment). -/
def isSpaceChar (c : Char) : Bool :=
  c == ' ' || c == '\t' || c == '\n' || c == '\r' || c == '\x0b' || c == '\x0c'

/-- Characters matched by the regex class \w (ASCII fragment). -/
def isWordChar (c : Char) : Bool :=
  c.isAlphanum || c == '_'

/-- The single-quote character (written numerically). -/
def squoteChar : Char := Char.ofNat 39

/-- The double-quote character (written numerically). -/
def dquoteChar : Char := Char.ofNat 34

/-- Lower-casing of a character list, modelling str.lower (ASCII). -/
def lcList (cs : List Char) : List Char := cs.map Char.toLower

/-- Upper-casing of a character list, modelling str.upper (ASCII). -/
def ucList (cs : List Char) : List Char := cs.map Char.toUpper

/-- Python str.strip(): drop whitespace from both ends. -/
def listStrip (cs : List Char) : List Char :=
  ((cs.dropWhile isSpaceChar).reverse.dropWhile isSpaceChar).reverse

/-- Python str.rstrip(chr): here only used to drop trailing semicolons. -/
def stripSemis (cs : List Char) : List Char :=
  (cs.reverse.dropWhile (fun c => c == ';')).reverse

/-- The strip().rstrip of the executor entry: query.strip().rstrip(chr(59)). -/
def pyNormalize (query : String) : List Char := stripSemis (listStrip query.data)

/-- Boolean list-prefix test (mirrors str.startswith on the char level). -/
def lpfx : List Char → List Char → Bool
  | [], _ => true
  | _ :: _, [] => false
  | p :: ps, c :: cs => p == c && lpfx ps cs

/-- Substring containment, modelling the Python `in` operator on strings. -/
def containsSeq (cs pat : List Char) : Bool :=
  match cs with
  | [] => pat.isEmpty
  | _ :: t => lpfx pat cs || containsSeq t pat

/-- Drop the first and last character, modelling the Python slice [1:-1]. -/
def pySlice1m1 (cs : List Char) : List Char := (cs.drop 1).dropLast

/-- Head-character test (str.startswith with a one-character prefix). -/
def headIs (cs : List Char) (c : Char) : Bool :=
  match cs with
  | x :: _ => x == c
  | [] => false

/-- Last-character test (str.endswith with a one-character suffix). -/
def lastIs (cs : List Char) (c : Char) : Bool := headIs cs.reverse c

/-- Python str.isdigit (ASCII fragment): nonempty and all digits. -/
def pyIsdigit (cs : List Char) : Bool := !cs.isEmpty && cs.all Char.isDigit

/-- Numeric value of a digit string. -/
def natOfDigits (cs : List Char) : Nat :=
  cs.foldl (fun a c => 10 * a + (c.toNat - 48)) 0

/-- Run of digits possibly separated by single underscores, continuing a
run whose first digit was already consumed; returns the unconsumed rest.
Models the digit-group part of Python's int()/float() literal grammar. -/
def takeUDigitsAux : List Char → List Char
  | [] => []
  | c :: cs =>
    if c.isDigit then takeUDigitsAux cs
    else if c == '_' then
      match cs with
      | d :: cs2 => if d.isDigit then takeUDigitsAux cs2 else c :: cs
      | [] => c :: cs
    else c :: cs

/-- Consume a digit group (with underscores); none when no leading digit. -/
def takeUDigits : List Char → Option (List Char)
  | c :: cs => if c.isDigit then some (takeUDigitsAux cs) else none
  | [] => none

/-- Accumulating evaluation of a digit group with underscores; none on a
malformed underscore placement or a non-digit character. -/
def digitsUAux (acc : Nat) : List Char → Option Nat
  | [] => some acc
  | c :: cs =>
    if c.isDigit then digitsUAux (10 * acc + (c.toNat - 48)) cs
    else if c == '_' then
      match cs with
      | d :: cs2 => if d.isDigit then digitsUAux (10 * acc + (d.toNat - 48)) cs2 else none
      | [] => none
    else none

/-- Value of a full digit group (underscores allowed between digits). -/
def digitsU : List Char → Option Nat
  | c :: cs => if c.isDigit then digitsUAux (c.toNat - 48) cs else none
  | [] => none

/-- Python int(str): optional surrounding whitespace, optional sign,
digit group; none models the ValueError. -/
def pyIntOpt (s : List Char) : Option Int :=
  match listStrip s with
  | c :: cs =>
    if c == '+' then
      match digitsU cs with
      | some n => some (n : Int)
      | none => none
    else if c == '-' then
      match digitsU cs with
      | some n => some (-(n : Int))
      | none => none
    else
      match digitsU (c :: cs) with
      | some n => some (n : Int)
      | none => none
  | [] => none

/-- Exponent tail of a Python float literal: empty, or e/E, optional
sign, digit group consuming the whole rest. -/
def expPartOk (cs : List Char) : Bool :=
  match cs with
  | [] => true
  | c :: rest =>
    if c == 'e' || c == 'E' then
      let rest2 := match rest with
        | s :: r2 => if s == '+' || s == '-' then r2 else rest
        | [] => rest
      match takeUDigits rest2 with
      | some [] => true
      | _ => false
    else false

/-- Body of a Python float literal after the optional sign. -/
def floatBodyOk (t : List Char) : Bool :=
  lcList t == "inf".data || lcList t == "infinity".data || lcList t == "nan".data ||
  (match takeUDigits t with
   | some rest =>
     (match rest with
      | [] => true
      | c :: r2 =>
        if c == '.' then
          (match takeUDigits r2 with
           | some r3 => expPartOk r3
           | none => expPartOk r2)
        else expPartOk rest)
   | none =>
     match t with
     | c :: r2 =>
       if c == '.' then
         (match takeUDigits r2 with
          | some r3 => expPartOk r3
          | none => false)
       else false
     | [] => false)

/-- Python float(str) success test: whitespace, optional sign, body.
Only acceptance is modelled; the numeric value of a float is never
inspected by the program, so floats carry their source token. -/
def pyFloatOk (s : List Char) : Bool :=
  let t := listStrip s
  match t with
  | c :: cs => if c == '+' || c == '-' then floatBodyOk cs else floatBodyOk (c :: cs)
  | [] => false

/-- Values produced by decoding SQL value tokens (Python None, str, int,
float; a float keeps its source token, see pyFloatOk). -/
inductive Value where
  | null : Value
  | str (s : String) : Value
  | int (n : Int) : Value
  | float (tok : String) : Value
deriving DecidableEq, Repr

/-- Decoding of one value token of an INSERT values list or an UPDATE SET
clause (source lines 244-258 and 284-295; the two blocks are identical,
embedded once): NULL in any case, then matching single or double quotes,
then float for tokens containing a dot else int, ValueError keeping the
raw string. -/
def decodeValueToken (value : String) : Value :=
  let cs := value.data
  if ucList cs == "NULL".data then .null
  else if (headIs cs squoteChar && lastIs cs squoteChar) || (headIs cs dquoteChar && lastIs cs dquoteChar) then
    .str (String.mk (pySlice1m1 cs))
  else if cs.contains '.' then
    if pyFloatOk cs then .float value else .str value
  else
    match pyIntOpt cs with
    | some n => .int n
    | none => .str value

/-- Decoding of the WHERE equality token (source lines 302-305 and
331-334, identical): dequote on single quotes, int on isdigit, else the
raw string. -/
def decodeWhereValue (value : String) : Value :=
  let cs := value.data
  if headIs cs squoteChar && lastIs cs squoteChar then .str (String.mk (pySlice1m1 cs))
  else if pyIsdigit cs then .int (natOfDigits cs)
  else .str value

/-- Case-insensitive literal matcher (pattern given lower-cased):
consume the literal, return the rest, none on mismatch.  Models a fixed
word inside an IGNORECASE regex. -/
def matchCI : List Char → List Char → Option (List Char)
  | [], cs => some cs
  | _ :: _, [] => none
  | p :: ps, c :: cs => if c.toLower == p then matchCI ps cs else none

/-- Case-sensitive literal matcher. -/
def matchExact : List Char → List Char → Option (List Char)
  | [], cs => some cs
  | _ :: _, [] => none
  | p :: ps, c :: cs => if c == p then matchExact ps cs else none

/-- Drop a maximal run of whitespace (the regex \s*). -/
def dropWs (cs : List Char) : List Char := cs.dropWhile isSpaceChar

/-- The regex \s+ : at least one whitespace character, maximal run.
A maximal run is sound wherever the following regex item cannot start
with whitespace, which holds at every \s+ of the embedded patterns. -/
def ws1 (cs : List Char) : Option (List Char) :=
  match cs with
  | c :: rest => if isSpaceChar c then some (dropWs rest) else none
  | [] => none

/-- The regex (\w+): maximal nonempty run of word characters. -/
def word1 (cs : List Char) : Option (List Char × List Char) :=
  let w := cs.takeWhile isWordChar
  if w.isEmpty then none else some (w, cs.drop w.length)

/-- The regex (\S+): maximal nonempty run of non-whitespace characters. -/
def nonWs1 (cs : List Char) : Option (List Char × List Char) :=
  let w := cs.takeWhile (fun c => !isSpaceChar c)
  if w.isEmpty then none else some (w, cs.drop w.length)

/-- A single expected character. -/
def expectChar (c : Char) : List Char → Option (List Char)
  | x :: xs => if x == c then some xs else none
  | [] => none

/-- The regex (.*) without DOTALL: everything up to the first newline
(re.match ignores what follows the match). -/
def restLine (cs : List Char) : List Char := cs.takeWhile (fun c => c != '\n')

/-- Lazy group before a closing parenthesis with continuation k, i.e.
the fragment (.*?)\) followed by k: the shortest non-newline content
ending at a closing parenthesis after which k succeeds, retrying longer
content when k fails — exactly the engine's lazy backtracking. -/
def lazyClose {α : Type} (k : List Char → Option α) : List Char → Option (List Char × α)
  | [] => none
  | c :: cs =>
    match (if c == ')' then k cs else none) with
    | some a => some ([], a)
    | none =>
      if c == '\n' then none
      else (lazyClose k cs).map (fun p => (c :: p.1, p.2))

/-- The fragment \s+where\s+ (IGNORECASE) at the head; returns the rest
after the second whitespace run. -/
def wsWhereWs (cs : List Char) : Option (List Char) := do
  let r1 ← ws1 cs
  let r2 ← matchCI "where".data r1
  ws1 r2

/-- The fragment (.*?)\s+where\s+(.*): leftmost split of the line into a
non-newline lazy part and the rest-of-line after a whitespace-delimited
where. -/
def findWhereSplit : List Char → Option (List Char × List Char)
  | [] => none
  | c :: rest =>
    match wsWhereWs (c :: rest) with
    | some r => some ([], restLine r)
    | none =>
      if c == '\n' then none
      else (findWhereSplit rest).map (fun p => (c :: p.1, p.2))

/-- Backtracking over the greedy \s+ that precedes the lazy set-clause
group in the UPDATE pattern: the run after the word set is consumed
maximally first, then given back one character at a time (never all of
it) into the front of the lazy group, exactly the engine's exploration
order for \s+(.*?)\s+where\s+(.*). -/
def setSplitTry : List Char → List Char → Option (List Char × List Char)
  | runRev, content =>
    match findWhereSplit content with
    | some p => some p
    | none =>
      match runRev with
      | [] => none
      | w :: ws' => if ws'.isEmpty then none else setSplitTry ws' (w :: content)

/-- The re.match of insert\s+into\s+(\w+)\s*\((.*?)\)\s*values\s*\((.*?)\)
(IGNORECASE) from source line 238: table name, columns text, values text. -/
def parseInsert (cs : List Char) : Option (String × List Char × List Char) := do
  let r1 ← matchCI "insert".data cs
  let r2 ← ws1 r1
  let r3 ← matchCI "into".data r2
  let r4 ← ws1 r3
  let (tw, r5) ← word1 r4
  let r7 ← expectChar '(' (dropWs r5)
  let (colsCs, r8) ← lazyClose (fun rest => do
        let b ← matchCI "values".data (dropWs rest)
        expectChar '(' (dropWs b)) r7
  let (valsCs, _) ← lazyClose (fun rest => some rest) r8
  pure (String.mk tw, colsCs, valsCs)

/-- The re.match of update\s+(\w+)\s+set\s+(.*?)\s+where\s+(.*)
(IGNORECASE) from source line 271: table name, set-clause text,
where-clause text. -/
def parseUpdate (cs : List Char) : Option (String × List Char × List Char) := do
  let r1 ← matchCI "update".data cs
  let r2 ← ws1 r1
  let (tw, r3) ← word1 r2
  let r4 ← ws1 r3
  let r5 ← matchCI "set".data r4
  let wsRun := r5.takeWhile isSpaceChar
  if wsRun.isEmpty then none
  else do
    let (setCs, whereCs) ← setSplitTry wsRun.reverse (r5.drop wsRun.length)
    pure (String.mk tw, setCs, whereCs)

/-- The re.match of delete\s+from\s+(\w+)(?:\s+where\s+(.*))? (IGNORECASE)
from source line 318: table name and optional where-clause text. -/
def parseDeleteFrom (cs : List Char) : Option (String × Option (List Char)) := do
  let r1 ← matchCI "delete".data cs
  let r2 ← ws1 r1
  let r3 ← matchCI "from".data r2
  let r4 ← ws1 r3
  let (tw, r5) ← word1 r4
  match wsWhereWs r5 with
  | some r6 => pure (String.mk tw, some (restLine r6))
  | none => pure (String.mk tw, none)

/-- The re.match of (\w+)\s*=\s*(\S+) on a where clause (source lines 297
and 326): column name and predicate token (the token is \S+, so the
strip applied to it in the source is the identity). -/
def parseWhereEq (cs : List Char) : Option (String × String) := do
  let (col, r1) ← word1 cs
  let r3 ← expectChar '=' (dropWs r1)
  let (tok, _) ← nonWs1 (dropWs r3)
  pure (String.mk col, String.mk tok)

/-- Python str.split(sep) for a one-character separator: every separator
splits, empty parts kept. -/
def splitCharAux (sep : Char) (acc : List Char) : List Char → List (List Char)
  | [] => [acc.reverse]
  | c :: cs =>
    if c == sep then acc.reverse :: splitCharAux sep [] cs
    else splitCharAux sep (c :: acc) cs

/-- Comma-split followed by per-part strip, as in the source's column and
value list comprehensions (line 241-242). -/
def splitStripped (cs : List Char) : List String :=
  (splitCharAux ',' [] cs).map (fun p => String.mk (listStrip p))

/-- A result row as returned by the remote client (a mapping). -/
abbrev Row := List (String × Value)

/-- A remote-call response.  error models the source's
hasattr(response, error-attr) and truthiness test as one option; data is
none when the response has no data attribute, some rows otherwise (a
data attribute holding a non-list None is not modelled; no claim
depends on it). -/
structure DbResponse where
  error : Option String
  data : Option (List Row)
deriving DecidableEq, Repr

/-- One remote call attempted by the executor, in order of issue. -/
inductive StoreCall where
  | insert (table : String) (data : List (String × Value))
  | update (table : String) (data : List (String × Value)) (col : String) (val : Value)
  | delete (table : String) (col : String) (val : Value)
  | rpc (fn : String) (sqlArg : String)
deriving DecidableEq, Repr

/-- The remote store client as an oracle: each operation either raises
(Except.error carries str(e)) or returns a response. -/
structure Store where
  insertRes : String → List (String × Value) → Except String DbResponse
  updateRes : String → List (String × Value) → String → Value → Except String DbResponse
  deleteRes : String → String → Value → Except String DbResponse
  rpcRes : String → String → Except String DbResponse

/-- The executor's result dictionary shapes: error, a row list, a
success-message dictionary (with the optional rows_affected key), or the
warning dictionary. -/
inductive QueryResult where
  | error (msg : String)
  | rows (rs : List Row)
  | message (msg : String) (success : Bool) (rowsAffected : Option Nat)
  | warning (msg : String)
deriving DecidableEq, Repr

/-- Python dict assignment d[k] = v on an insertion-ordered dictionary
modelled as an association list: an existing key keeps its position and
is overwritten, a new key is appended. -/
def dictSet (d : List (String × Value)) (k : String) (v : Value) : List (String × Value) :=
  if d.any (fun p => p.1 == k) then d.map (fun p => if p.1 == k then (k, v) else p)
  else d ++ [(k, v)]

/-- The insert branch's loop over enumerate(columns) indexing values[i]
(source lines 245-258): pairs columns with value tokens positionally;
a missing index raises IndexError (caught by the outer handler). -/
def buildInsertData (acc : List (String × Value)) :
    List String → List String → Except String (List (String × Value))
  | [], _ => .ok acc
  | _ :: _, [] => .error "list index out of range"
  | c :: cols, v :: vals => buildInsertData (dictSet acc c (decodeValueToken v)) cols vals

/-- The update branch's loop over the comma-split set items (source lines
277-295): items without an equals sign are skipped, others are split once
on the first equals sign, both parts stripped, the value decoded. -/
def buildUpdateData (items : List (List Char)) : List (String × Value) :=
  items.foldl (fun acc item =>
    if item.contains '=' then
      let pre := item.takeWhile (fun c => c != '=')
      let post := (item.drop pre.length).drop 1
      dictSet acc (String.mk (listStrip pre)) (decodeValueToken (String.mk (listStrip post)))
    else acc) []

/-- Handling of the structured insert response (source lines 260-268). -/
def insertRespond : Except String DbResponse → QueryResult
  | .error e => .error ("Query failed: " ++ e)
  | .ok resp =>
    match resp.error with
    | some err => .error ("Insert failed: " ++ err)
    | none =>
      match resp.data with
      | some rs => .rows rs
      | none => .message "Insert was executed successfully" true none

/-- Handling of the structured update response (source lines 307-315). -/
def updateRespond : Except String DbResponse → QueryResult
  | .error e => .error ("Query failed: " ++ e)
  | .ok resp =>
    match resp.error with
    | some err => .error ("Update failed: " ++ err)
    | none =>
      match resp.data with
      | some rs => .rows rs
      | none => .message "Update was executed successfully" true none

/-- Handling of the structured delete response (source lines 336-344):
on a data attribute the message carries rows_affected, the row count
(len(response.data) if response.data else 0, which equals the length). -/
def deleteRespond : Except String DbResponse → QueryResult
  | .error e => .error ("Query failed: " ++ e)
  | .ok resp =>
    match resp.error with
    | some err => .error ("Delete failed: " ++ err)
    | none =>
      match resp.data with
      | some rs => .message "Delete was executed successfully" true (some rs.length)
      | none => .message "Delete was executed successfully" true none

/-- First DML keyword of the query text in the source's priority order
insert, update, delete (source line 362). -/
def rawOpName (ql : List Char) : String :=
  if containsSeq ql "insert".data then "insert"
  else if containsSeq ql "update".data then "update"
  else "delete"

/-- Handling of a raw-RPC response (source lines 354-366). -/
def rawRespond (ql : List Char) (resp : DbResponse) : QueryResult :=
  match resp.error with
  | some err => .error ("Database error: " ++ err)
  | none =>
    match resp.data with
    | some (r :: rs) => .rows (r :: rs)
    | some [] =>
      if containsSeq ql "insert".data || containsSeq ql "update".data ||
          containsSeq ql "delete".data then
        .message ("The " ++ rawOpName ql ++ " operation was executed successfully") true none
      else .rows []
    | none => .warning "Query executed but returned no data attribute"

/-- The raw execution fallback (source lines 346-366): run_sql_query
first, run_sql on a raised fault, error when both raise. -/
def rawPath (store : Store) (q ql : List Char) : QueryResult × List StoreCall :=
  let qs := String.mk q
  match store.rpcRes "run_sql_query" qs with
  | .ok resp => (rawRespond ql resp, [.rpc "run_sql_query" qs])
  | .error _ =>
    match store.rpcRes "run_sql" qs with
    | .ok resp => (rawRespond ql resp, [.rpc "run_sql_query" qs, .rpc "run_sql" qs])
    | .error e2 =>
      (.error ("Query failed: " ++ e2), [.rpc "run_sql_query" qs, .rpc "run_sql" qs])

/-- The executor execute_sql_query (source lines 230-370), returning the
result together with the ordered list of remote calls attempted. -/
def execute_sql_query (connected : Bool) (store : Store) (query : String) :
    QueryResult × List StoreCall :=
  if !connected then (.error "Not connected to database", [])
  else
    let q := pyNormalize query
    let ql := lcList q
    if lpfx "insert into".data ql then
      match parseInsert q with
      | some (table, colsCs, valsCs) =>
        match buildInsertData [] (splitStripped colsCs) (splitStripped valsCs) with
        | .error e => (.error ("Query failed: " ++ e), [])
        | .ok data => (insertRespond (store.insertRes table data), [.insert table data])
      | none => rawPath store q ql
    else if lpfx "update".data ql then
      match parseUpdate q with
      | some (table, setCs, whereCs) =>
        let data := buildUpdateData (splitCharAux ',' [] setCs)
        match parseWhereEq whereCs with
        | some (col, tok) =>
          (updateRespond (store.updateRes table data col (decodeWhereValue tok)),
           [.update table data col (decodeWhereValue tok)])
        | none => rawPath store q ql
      | none => rawPath store q ql
    else if lpfx "delete from".data ql then
      match parseDeleteFrom q with
      | some (table, whereOpt) =>
        match whereOpt with
        | none =>
          (.error "DELETE without WHERE clause is not allowed for safety. Please specify a WHERE condition.", [])
        | some whereCs =>
          match parseWhereEq whereCs with
          | some (col, tok) =>
            (deleteRespond (store.deleteRes table col (decodeWhereValue tok)),
             [.delete table col (decodeWhereValue tok)])
          | none => rawPath store q ql
      | none => rawPath store q ql
    else rawPath store q ql

/-- A schema-discovery result row: the source indexes each entry dict at
table_name and column_name (rows lacking the keys would raise; no claim
exercises that, so rows are modelled with the two fields). -/
structure SchemaRow where
  table_name : String
  column_name : String
deriving DecidableEq, Repr

/-- A schema-discovery response; data none models a response without the
data attribute (reading it raises AttributeError in the source). -/
structure SchemaResp where
  data : Option (List SchemaRow)
deriving Repr

/-- The schema-discovery side of the store client: rpc name and optional
sql_query parameter (none for the empty parameter dict). -/
structure SchemaStore where
  rpcRes : String → Option String → Except String SchemaResp

/-- The triple-quoted discovery query text of source lines 101-106. -/
def schemaQuery : String :=
  "\n        SELECT table_name, column_name\n        FROM information_schema.columns\n        WHERE table_schema = \x27public\x27\n        ORDER BY table_name, ordinal_position\n        "

/-- Result of get_supabase_schema: the grouped mapping or the error dict. -/
inductive SchemaFetchResult where
  | schema (tables : List (String × List String))
  | fetchError (msg : String)
deriving DecidableEq, Repr

/-- One grouping step of source lines 91-96 / 114-119: append the column
to its table's list, registering a fresh table at the end (dict insertion
order). -/
def addSchemaEntry (schema : List (String × List String)) (t c : String) :
    List (String × List String) :=
  if schema.any (fun p => p.1 == t) then
    schema.map (fun p => if p.1 == t then (p.1, p.2 ++ [c]) else p)
  else schema ++ [(t, [c])]

/-- Fold of the discovery rows into the table-to-columns mapping. -/
def buildSchema (rows : List SchemaRow) : List (String × List String) :=
  rows.foldl (fun s r => addSchemaEntry s r.table_name r.column_name) []

/-- Stand-in text for the AttributeError raised when a schema response
has no data attribute; only the fact of the exception, not Python's
wording, is modelled. -/
def attrMissingMsg : String := "response has no data attribute"

/-- The fallback part of get_supabase_schema (source lines 101-122):
run_sql_query, then run_sql when the first returns falsy data; raised
faults and missing data attributes reach the outer handler of line 123. -/
def schemaFallback (store : SchemaStore) : SchemaFetchResult :=
  match store.rpcRes "run_sql_query" (some schemaQuery) with
  | .error e => .fetchError ("Exception occurred while fetching schema: " ++ e)
  | .ok resp2 =>
    match resp2.data with
    | none => .fetchError ("Exception occurred while fetching schema: " ++ attrMissingMsg)
    | some d2 =>
      if d2.isEmpty then
        match store.rpcRes "run_sql" (some schemaQuery) with
        | .error e => .fetchError ("Exception occurred while fetching schema: " ++ e)
        | .ok resp3 =>
          match resp3.data with
          | none => .fetchError ("Exception occurred while fetching schema: " ++ attrMissingMsg)
          | some [] => .fetchError "No data returned from schema query"
          | some (r :: rs) => .schema (buildSchema (r :: rs))
      else .schema (buildSchema d2)

/-- get_supabase_schema (source lines 81-124): primary structured rpc
get_table_schema; any raised fault, empty data or missing data attribute
falls through to the fallback chain. -/
def get_supabase_schema (connected : Bool) (store : SchemaStore) : SchemaFetchResult :=
  if !connected then .fetchError "Not connected to database"
  else
    match store.rpcRes "get_table_schema" none with
    | .ok resp =>
      match resp.data with
      | some (r :: rs) => .schema (buildSchema (r :: rs))
      | _ => schemaFallback store
    | .error _ => schemaFallback store

/-- format_schema_for_prompt (source lines 126-144) on the dict-shaped
session value: the error dict matches neither isinstance branch and
yields the bare heading (the list branch is unreachable from session
state, which only ever holds this type or none). -/
def format_schema_for_prompt : SchemaFetchResult → String
  | .schema tables =>
    tables.foldl
      (fun acc p => acc ++ "\nTable `" ++ p.1 ++ "` with columns: " ++ String.intercalate ", " p.2)
      "Here is the database schema:\n"
  | .fetchError _ => "Here is the database schema:\n"

/-- Keyword test of source line 163. -/
def is_update (pl : List Char) : Bool :=
  containsSeq pl "update".data || containsSeq pl "modify".data ||
  containsSeq pl "change".data || containsSeq pl "set".data

/-- Keyword test of source line 164. -/
def is_delete (pl : List Char) : Bool :=
  containsSeq pl "delete".data || containsSeq pl "remove".data

/-- Keyword test of source line 165. -/
def is_insert (pl : List Char) : Bool :=
  containsSeq pl "insert".data || containsSeq pl "add".data ||
  containsSeq pl "create".data || containsSeq pl "new".data

/-- Keyword test of source line 166. -/
def is_select (pl : List Char) : Bool :=
  containsSeq pl "fetch".data || containsSeq pl "show".data ||
  containsSeq pl "get".data || containsSeq pl "select".data ||
  containsSeq pl "find".data || containsSeq pl "list".data

/-- Maximal nonempty digit run, the captured \d+ of the row-reference
pattern. -/
def digits1 (cs : List Char) : Option (List Char) :=
  let d := cs.takeWhile Char.isDigit
  if d.isEmpty then none else some d

/-- Match of row|record|id\s*(?:number)?\s*(\d+) anchored at the head of
the (lower-cased) text; the alternatives diverge on their first two
characters, and the two \s* together with the optional word number admit
exactly the two shapes tried here, so the scan is backtracking-complete. -/
def rowIdAt (cs : List Char) : Option (List Char) :=
  let afterKw : Option (List Char) :=
    match matchExact "row".data cs with
    | some r => some r
    | none =>
      match matchExact "record".data cs with
      | some r => some r
      | none => matchExact "id".data cs
  match afterKw with
  | none => none
  | some r =>
    let r1 := dropWs r
    let viaNumber : Option (List Char) :=
      match matchExact "number".data r1 with
      | some r2 => digits1 (dropWs r2)
      | none => none
    match viaNumber with
    | some ds => some ds
    | none => digits1 r1

/-- The re.search of source line 168: leftmost row/record/id reference. -/
def findRowId : List Char → Option (List Char)
  | [] => none
  | c :: cs =>
    match rowIdAt (c :: cs) with
    | some ds => some ds
    | none => findRowId cs

/-- The WHERE-id suffix appended to update/delete guidance when a row id
was extracted (source lines 179 and 183). -/
def rowCondSuffix (rid : Option String) : String :=
  match rid with
  | some r => "\n- Use \x27WHERE id = " ++ r ++ "\x27 as the condition"
  | none => ""

/-- Guidance text of source line 173. -/
def selectGuidance : String :=
  "\nFor the SELECT query:\n- Use PostgreSQL syntax\n- Use single quotes for strings\n- Use ILIKE for case-insensitive matching"

/-- Guidance text of source line 175. -/
def insertGuidance : String :=
  "\nFor the INSERT query:\n- Include all relevant columns from the user\x27s request\n- Do NOT include the id column (it\x27s auto-generated)\n- Do NOT include the created_at column (it\x27s auto-generated)\n- Use single quotes for strings"

/-- Guidance text of source lines 177-179. -/
def updateGuidance (rid : Option String) : String :=
  "\nFor the UPDATE query:\n- Include all relevant columns to update from the user\x27s request\n- Be sure to include a proper WHERE clause" ++ rowCondSuffix rid

/-- Guidance text of source lines 181-183. -/
def deleteGuidance (rid : Option String) : String :=
  "\nFor the DELETE query:\n- Include a proper WHERE clause to avoid deleting all records" ++ rowCondSuffix rid

/-- The operation-guidance selection of source lines 171-183: an
if/elif chain testing select, then insert, then update, then delete. -/
def operation_guidance (pl : List Char) (rid : Option String) : String :=
  if is_select pl then selectGuidance
  else if is_insert pl then insertGuidance
  else if is_update pl then updateGuidance rid
  else if is_delete pl then deleteGuidance rid
  else ""

/-- The fixed table list of source line 186. -/
def common_tables : List String :=
  ["employees", "customers", "orders", "products", "refund_requests"]

/-- Match of a known table name or its trailing-character-dropped
singular in the prompt (source line 188). -/
def tableMatches (pl : List Char) (t : String) : Bool :=
  containsSeq pl t.data || containsSeq pl t.data.dropLast

/-- The table-hint loop of source lines 185-191: break on the first
matching table, hint text only when the schema is unavailable. -/
def table_hint (schemaErr : Bool) (pl : List Char) : String :=
  match common_tables.find? (tableMatches pl) with
  | some t =>
    if schemaErr then "\nYou should use the \x27" ++ t ++ "\x27 table for this query." else ""
  | none => ""

/-- The fallback schema description of source line 158. -/
def fallbackSchemaDescription : String :=
  "Generate SQL using the common tables like \x27employees\x27, \x27customers\x27, \x27orders\x27, \x27products\x27, or \x27refund_requests\x27 with standard columns."

/-- The schema_error test of source line 155 on the session value. -/
def schemaIsError : Option SchemaFetchResult → Bool
  | none => true
  | some (.fetchError _) => true
  | some (.schema _) => false

/-- The refined prompt of source lines 154-197. -/
def composeRefinedPrompt (schema_data : Option SchemaFetchResult) (prompt : String) : String :=
  let schemaErr := schemaIsError schema_data
  let schemaDescription :=
    if schemaErr then fallbackSchemaDescription
    else match schema_data with
      | some sd => format_schema_for_prompt sd
      | none => fallbackSchemaDescription
  let pl := lcList prompt.data
  let rid := (findRowId pl).map String.mk
  schemaDescription ++ "\n\n" ++ "Generate a PostgreSQL query for: " ++ prompt ++ "." ++
    operation_guidance pl rid ++ table_hint schemaErr pl ++ "\n\n" ++
    "Return only the SQL query without any explanation, markdown formatting, or backticks."

/-- Python str.replace(pat, empty) removing every non-overlapping
occurrence left to right, structurally recursive on a character budget
that the wrapper sets to the text length (enough, as every step consumes
at least one character); an empty pattern never occurs in the source. -/
def replaceSeqAux (pat : List Char) : Nat → List Char → List Char
  | _, [] => []
  | 0, cs => cs
  | fuel + 1, c :: t =>
    if lpfx pat (c :: t) && !pat.isEmpty then replaceSeqAux pat fuel (t.drop (pat.length - 1))
    else c :: replaceSeqAux pat fuel t

/-- Python str.replace(pat, empty) on character lists. -/
def replaceSeq (pat cs : List Char) : List Char := replaceSeqAux pat cs.length cs

/-- Case-insensitive prefix test against a lower-cased pattern. -/
def ciIsPrefix (pat cs : List Char) : Bool := (matchCI pat cs).isSome

/-- One of the four statement keywords at the head, case-insensitively
(the alternation of source line 219; first letters are distinct, so at
most one alternative applies at a position). -/
def kwHead (cs : List Char) : Bool :=
  ciIsPrefix "select".data cs || ciIsPrefix "insert".data cs ||
  ciIsPrefix "update".data cs || ciIsPrefix "delete".data cs

/-- The re.search of source line 219 with DOTALL: the suffix starting at
the leftmost keyword occurrence. -/
def findKwSuffix : List Char → Option (List Char)
  | [] => none
  | c :: t => if kwHead (c :: t) then some (c :: t) else findKwSuffix t

/-- The fence stripping of source line 217: drop sql-tagged fences, then
bare fences, then strip. -/
def fenceStrip (text : String) : List Char :=
  listStrip (replaceSeq "```".data (replaceSeq "```sql".data text.data))

/-- The SQL extraction of source lines 216-222 applied to a candidate
text: fence-strip, then the trimmed suffix from the first statement
keyword, or the trimmed text itself when no keyword occurs. -/
def extract_sql_text (text : String) : String :=
  let t := fenceStrip text
  match findKwSuffix t with
  | some suf => String.mk (listStrip suf)
  | none => String.mk (listStrip t)

/-- A generation-endpoint response: status code, body text, and the
candidate texts (each candidate reduced to the text field the source
reads, missing keys defaulting to the empty string there). -/
structure GeminiResponse where
  status_code : Nat
  text : String
  candidates : List String
deriving DecidableEq, Repr

/-- Outcome of nl_to_sql_gemini: a SQL string or the error dict. -/
inductive SynthResult where
  | sql (s : String)
  | err (msg : String)
deriving DecidableEq, Repr

/-- nl_to_sql_gemini (source lines 146-228): compose the refined prompt,
post it (the endpoint is an oracle from the prompt, Except.error being a
raised request fault), then extract or report. -/
def nl_to_sql_gemini (connected : Bool) (schema_data : Option SchemaFetchResult)
    (prompt : String) (gemini : String → Except String GeminiResponse) : SynthResult :=
  if !connected then .err "Not connected to database"
  else
    match gemini (composeRefinedPrompt schema_data prompt) with
    | .error e => .err ("Error calling Gemini API: " ++ e)
    | .ok resp =>
      if resp.status_code == 200 then
        match resp.candidates with
        | c :: _ => .sql (extract_sql_text c)
        | [] => .err "No candidates returned by Gemini."
      else .err ("Gemini API error: " ++ resp.text)

/-- One query-history entry (source lines 386-390). -/
structure HistEntry where
  user_input : String
  sql_query : String
  result : QueryResult
deriving DecidableEq, Repr

/-- The session state touched by the orchestrator. -/
structure SessionState where
  connected : Bool
  schema_data : Option SchemaFetchResult
  query_history : List HistEntry
deriving DecidableEq, Repr

/-- Return shapes of handle_database_query: the bare error dict of the
not-connected path (source line 374) or the (result, sql) pair. -/
inductive HandleReturn where
  | single (r : QueryResult)
  | pair (r : QueryResult) (sql : Option String)
deriving DecidableEq, Repr

/-- handle_database_query (source lines 372-392): synthesize, return the
error with no statement on a synthesis error dict, otherwise execute,
append one history entry and return both; the returned triple carries
the updated session state and the remote calls attempted. -/
def handle_database_query (st : SessionState) (gemini : String → Except String GeminiResponse)
    (store : Store) (user_input : String) :
    HandleReturn × SessionState × List StoreCall :=
  if !st.connected then (.single (.error "Not connected to database"), st, [])
  else
    match nl_to_sql_gemini st.connected st.schema_data user_input gemini with
    | .err m => (.pair (.error m) none, st, [])
    | .sql s =>
      let rc := execute_sql_query st.connected store s
      (.pair rc.1 (some s),
       { st with query_history := st.query_history ++ [⟨user_input, s, rc.1⟩] },
       rc.2)

/-- A benign response: no error, data attribute present and empty. -/
def resp0 : DbResponse := ⟨none, some []⟩

/-- A concrete store whose every operation succeeds with resp0, used to
instantiate store-quantified statements. -/
def store0 : Store :=
  ⟨fun _ _ => .ok resp0, fun _ _ _ _ => .ok resp0, fun _ _ _ => .ok resp0, fun _ _ => .ok resp0⟩

/-- A store whose raw rpc returns one row, for the raw-success case. -/
def storeRows : Store :=
  ⟨fun _ _ => .ok resp0, fun _ _ _ _ => .ok resp0, fun _ _ _ => .ok resp0,
   fun _ _ => .ok ⟨none, some [[("test", Value.int 1)]]⟩⟩

/-- A schema store on which the primary discovery raises, the secondary
returns empty data and the tertiary returns one row. -/
def schemaStore1 : SchemaStore :=
  ⟨fun fn _ =>
    if fn == "get_table_schema" then .error "boom"
    else if fn == "run_sql_query" then .ok ⟨some []⟩
    else .ok ⟨some [⟨"customers", "id"⟩]⟩⟩

/-- A generation endpoint answering 500 with a body. -/
def gem500 : String → Except String GeminiResponse := fun _ => .ok ⟨500, "boom", []⟩

/-- A generation endpoint answering a fenced SELECT. -/
def gemSelect : String → Except String GeminiResponse :=
  fun _ => .ok ⟨200, "", ["```sql\nSELECT 1\n```"]⟩

/-- A connected session with no schema and empty history. -/
def st1 : SessionState := ⟨true, none, []⟩

/-- Python str.split() tokenization: whitespace-separated words. -/
def tokensOfAux (cur : List Char) : List Char → List (List Char)
  | [] => if cur.isEmpty then [] else [cur.reverse]
  | c :: t =>
    if isSpaceChar c then
      if cur.isEmpty then tokensOfAux [] t else cur.reverse :: tokensOfAux [] t
    else tokensOfAux (c :: cur) t

/-- Whitespace-separated words of a character list. -/
def tokensOf (cs : List Char) : List (List Char) := tokensOfAux [] cs

/-- Modelled from the spec side of C1: a DELETE statement lacking a
WHERE predicate, read as a statement whose lower-cased whitespace tokens
begin delete, from, a table token, with no where token anywhere. -/
def isUncondDeleteStatement (q : String) : Bool :=
  match tokensOf (lcList q.data) with
  | t1 :: t2 :: _ :: _ =>
    t1 == "delete".data && t2 == "from".data &&
    !(tokensOf (lcList q.data)).any (fun t => t == "where".data)
  | _ => false

/-- Modelled from the claim words of C2: operation guidance chosen by
the precedence update, then delete, then insert, then select. -/
def claimPrecedenceGuidance (pl : List Char) (rid : Option String) : String :=
  if is_update pl then updateGuidance rid
  else if is_delete pl then deleteGuidance rid
  else if is_insert pl then insertGuidance
  else if is_select pl then selectGuidance
  else ""

/-- Modelled from the claim words of C6: the extraction described as the
suffix from the least index at which a statement keyword occurs in the
fence-stripped trimmed text, trimmed; the trimmed text itself when no
index works. -/
def specExtractC6 (text : String) : String :=
  let t := fenceStrip text
  match (List.range t.length).find? (fun i => kwHead (t.drop i)) with
  | some i => String.mk (listStrip (t.drop i))
  | none => String.mk (listStrip t)

/-- The column-to-value pairing described by C9: each listed column is
paired with the value token at its position, surplus value tokens beyond
the columns playing no part (List.zip truncates to the shorter list). -/
def zipInsertData (cols vals : List String) : List (String × Value) :=
  (cols.zip vals).foldl (fun acc p => dictSet acc p.1 (decodeValueToken p.2)) []

theorem lpfx_cons_inv {c : Char} {p q : List Char} (h : lpfx (c :: p) q = true) :
    ∃ t, q = c :: t ∧ lpfx p t = true := by
  cases q with
  | nil => simp [lpfx] at h
  | cons d t =>
    simp only [lpfx, Bool.and_eq_true, beq_iff_eq] at h
    exact ⟨t, by rw [h.1], h.2⟩

theorem lpfx_insert_d (t : List Char) : lpfx "insert into".data ('d' :: t) = false := rfl

theorem lpfx_update_d (t : List Char) : lpfx "update".data ('d' :: t) = false := rfl

/-- C1, counterexample: the statement delete-double-space-from-customers
is a DELETE statement without a WHERE predicate, yet the executor
attempts a remote raw-RPC call for it and returns the raw path's
success message rather than the safety error, because the lower-cased
text does not start with the exact prefix the dispatch tests. -/
theorem c1_counterexample :
    isUncondDeleteStatement "delete  from customers" = true ∧
    (execute_sql_query true store0 "delete  from customers").2 =
      [StoreCall.rpc "run_sql_query" "delete  from customers"] ∧
    (execute_sql_query true store0 "delete  from customers").1 =
      QueryResult.message "The delete operation was executed successfully" true none := by
  refine ⟨rfl, rfl, rfl⟩

/-- C1 (amended): for every statement that the structured delete parser
recognises — lower-cased normalized text starting with the exact prefix
delete-space-from and matching the delete pattern — with no WHERE
clause, the executor returns the safety error immediately and attempts
no remote call, whatever the store would answer. -/
theorem c1_amended (q : String) (store : Store) (table : String)
    (hpre : lpfx "delete from".data (lcList (pyNormalize q)) = true)
    (hparse : parseDeleteFrom (pyNormalize q) = some (table, none)) :
    execute_sql_query true store q =
      (.error "DELETE without WHERE clause is not allowed for safety. Please specify a WHERE condition.", []) := by
  obtain ⟨t, hq, -⟩ := lpfx_cons_inv hpre
  rw [hq] at hpre
  simp only [execute_sql_query, Bool.not_true, hq, hpre, hparse, Bool.false_eq_true, if_false,
    if_true, Bool.true_eq_false]
  simp [lpfx]

theorem toUpper_digit {c : Char} (h : c.isDigit = true) : c.toUpper = c := by
  simp only [Char.isDigit, Bool.and_eq_true, decide_eq_true_eq] at h
  have h57 : c.toNat ≤ 57 := h.2
  unfold Char.toUpper
  have h2 : ¬ (c.toNat ≥ 97 ∧ c.toNat ≤ 122) := by omega
  simp only [h2, if_false]

theorem digit_ne {c d : Char} (h : c.isDigit = true) (hd : d.toNat < 48 ∨ 57 < d.toNat) :
    c ≠ d := by
  simp only [Char.isDigit, Bool.and_eq_true, decide_eq_true_eq] at h
  have h48 : 48 ≤ c.toNat := h.1
  have h57 : c.toNat ≤ 57 := h.2
  intro he
  subst he
  omega

theorem digit_beq_false {c d : Char} (h : c.isDigit = true) (hd : d.toNat < 48 ∨ 57 < d.toNat) :
    (c == d) = false :=
  beq_eq_false_iff_ne.mpr (digit_ne h hd)

theorem isSpaceChar_digit {c : Char} (h : c.isDigit = true) : isSpaceChar c = false := by
  unfold isSpaceChar
  rw [digit_beq_false h (show (' ' : Char).toNat < 48 ∨ 57 < (' ' : Char).toNat by decide)]
  rw [digit_beq_false h (show ('\t' : Char).toNat < 48 ∨ 57 < ('\t' : Char).toNat by decide)]
  rw [digit_beq_false h (show ('\n' : Char).toNat < 48 ∨ 57 < ('\n' : Char).toNat by decide)]
  rw [digit_beq_false h (show ('\r' : Char).toNat < 48 ∨ 57 < ('\r' : Char).toNat by decide)]
  rw [digit_beq_false h (show ('\x0b' : Char).toNat < 48 ∨ 57 < ('\x0b' : Char).toNat by decide)]
  rw [digit_beq_false h (show ('\x0c' : Char).toNat < 48 ∨ 57 < ('\x0c' : Char).toNat by decide)]
  rfl

theorem dropWhile_nonspace {cs : List Char} (h : ∀ x ∈ cs, isSpaceChar x = false) :
    cs.dropWhile isSpaceChar = cs := by
  cases cs with
  | nil => rfl
  | cons a t => rw [List.dropWhile_cons]; simp [h a (by simp)]

theorem listStrip_all_digit {cs : List Char} (h : cs.all Char.isDigit = true) :
    listStrip cs = cs := by
  rw [List.all_eq_true] at h
  have hns : ∀ x ∈ cs, isSpaceChar x = false := fun x hx => isSpaceChar_digit (h x hx)
  have hns2 : ∀ x ∈ cs.reverse, isSpaceChar x = false := fun x hx =>
    hns x (List.mem_reverse.mp hx)
  unfold listStrip
  rw [dropWhile_nonspace hns, dropWhile_nonspace hns2, List.reverse_reverse]

theorem digitsUAux_all {cs : List Char} (h : cs.all Char.isDigit = true) (acc : Nat) :
    digitsUAux acc cs = some (cs.foldl (fun a c => 10 * a + (c.toNat - 48)) acc) := by
  induction cs generalizing acc with
  | nil => rfl
  | cons c t ih =>
    rw [List.all_cons, Bool.and_eq_true] at h
    unfold digitsUAux
    rw [if_pos h.1]
    exact ih h.2 _

theorem pyIntOpt_all_digit {cs : List Char} (h : pyIsdigit cs = true) :
    pyIntOpt cs = some ((natOfDigits cs : Nat) : Int) := by
  unfold pyIsdigit at h
  rw [Bool.and_eq_true] at h
  obtain ⟨hne, hall⟩ := h
  cases cs with
  | nil => simp at hne
  | cons c t =>
    have hct := hall
    rw [List.all_cons, Bool.and_eq_true] at hct
    simp only [pyIntOpt, listStrip_all_digit hall]
    rw [digit_beq_false hct.1 (show ('+' : Char).toNat < 48 ∨ 57 < ('+' : Char).toNat by decide)]
    rw [digit_beq_false hct.1 (show ('-' : Char).toNat < 48 ∨ 57 < ('-' : Char).toNat by decide)]
    simp only [Bool.false_eq_true, if_false]
    simp only [digitsU]
    rw [if_pos hct.1, digitsUAux_all hct.2]
    simp [natOfDigits]

theorem ucList_all_digit_ne_NULL {cs : List Char} (h : pyIsdigit cs = true) :
    (ucList cs == "NULL".data) = false := by
  rw [beq_eq_false_iff_ne]
  intro he
  unfold pyIsdigit at h
  rw [Bool.and_eq_true] at h
  cases cs with
  | nil => simp at h
  | cons c t =>
    have hct := h.2
    rw [List.all_cons, Bool.and_eq_true] at hct
    have hnull : "NULL".data = 'N' :: "ULL".data := rfl
    rw [hnull] at he
    simp only [ucList, List.map_cons, List.cons.injEq] at he
    have hc : c.toUpper = c := toUpper_digit hct.1
    rw [hc] at he
    exact digit_ne hct.1 (by decide) he.1

theorem contains_dot_false {cs : List Char} (hall : cs.all Char.isDigit = true) :
    cs.contains '.' = false := by
  rw [Bool.eq_false_iff]
  intro hc
  have hm : '.' ∈ cs := by simpa [List.contains] using hc
  rw [List.all_eq_true] at hall
  have := hall '.' hm
  simp [Char.isDigit] at this

theorem decode_all_digit {v : String} (h : pyIsdigit v.data = true) :
    decodeValueToken v = Value.int ((natOfDigits v.data : Nat) : Int) := by
  have hall : v.data.all Char.isDigit = true := by
    unfold pyIsdigit at h
    exact (Bool.and_eq_true _ _ |>.mp h).2
  simp only [decodeValueToken]
  rw [ucList_all_digit_ne_NULL h]
  cases hv : v.data with
  | nil => rw [hv] at h; simp [pyIsdigit] at h
  | cons c t =>
    rw [hv] at hall h
    have hct := hall
    rw [List.all_cons, Bool.and_eq_true] at hct
    have hhead : headIs (c :: t) squoteChar = false := by
      unfold headIs
      exact digit_beq_false hct.1 (by decide)
    have hheadd : headIs (c :: t) dquoteChar = false := by
      unfold headIs
      exact digit_beq_false hct.1 (by decide)
    rw [hhead, hheadd]
    simp only [Bool.false_and, Bool.or_self, Bool.false_eq_true, if_false]
    rw [contains_dot_false hall]
    simp only [Bool.false_eq_true, if_false]
    rw [pyIntOpt_all_digit h]

/-- C1 (amended), witness at the canonical unconditioned delete. -/
theorem c1_amended_witness :
    execute_sql_query true store0 "delete from customers" =
      (.error "DELETE without WHERE clause is not allowed for safety. Please specify a WHERE condition.", []) :=
  c1_amended "delete from customers" store0 "customers" (by decide) (by decide)

/-- C2, counterexample: the input update-delete-new matches both the
update and the delete keyword sets, yet the composed prompt carries the
INSERT guidance and not the UPDATE guidance, because the source checks
select, then insert, then update, then delete. -/
theorem c2_counterexample :
    is_update "update delete new".data = true ∧
    is_delete "update delete new".data = true ∧
    containsSeq (composeRefinedPrompt none "update delete new").data (updateGuidance none).data = false ∧
    containsSeq (composeRefinedPrompt none "update delete new").data insertGuidance.data = true ∧
    operation_guidance "update delete new".data none = insertGuidance := by
  refine ⟨rfl, rfl, by decide, by decide, rfl⟩

/-- C2 (amended): the operation guidance is chosen by the fixed
precedence select, then insert, then update, then delete — the first
matching keyword set in that checked order wins; in particular an input
matching both the update and the delete sets but neither the select nor
the insert set receives the UPDATE guidance. -/
theorem c2_amended (pl : List Char) (rid : Option String) :
    (is_select pl = true → operation_guidance pl rid = selectGuidance) ∧
    (is_select pl = false → is_insert pl = true → operation_guidance pl rid = insertGuidance) ∧
    (is_select pl = false → is_insert pl = false → is_update pl = true →
      operation_guidance pl rid = updateGuidance rid) ∧
    (is_select pl = false → is_insert pl = false → is_update pl = false → is_delete pl = true →
      operation_guidance pl rid = deleteGuidance rid) ∧
    (is_select pl = false → is_insert pl = false → is_update pl = false → is_delete pl = false →
      operation_guidance pl rid = "") := by
  unfold operation_guidance
  refine ⟨fun h1 => by simp [h1], fun h1 h2 => by simp [h1, h2],
    fun h1 h2 h3 => by simp [h1, h2, h3], fun h1 h2 h3 h4 => by simp [h1, h2, h3, h4],
    fun h1 h2 h3 h4 => by simp [h1, h2, h3, h4]⟩

/-- C2 (amended), witness: change-remove matches the update and delete
sets only, so the UPDATE guidance is selected. -/
theorem c2_amended_witness :
    operation_guidance "change remove".data none = updateGuidance none :=
  (c2_amended "change remove".data none).2.2.1 (by decide) (by decide) (by decide)

/-- C3, counterexample: the dot-containing token a.b is not a valid
float literal, so it decodes to the raw string, not to a float; and the
signed token minus-five is not all-digit yet decodes to an integer, not
to the raw string; both reach the structured insert unchanged. -/
theorem c3_counterexample :
    "a.b".data.contains '.' = true ∧
    decodeValueToken "a.b" = Value.str "a.b" ∧
    decodeValueToken "-5" = Value.int (-5) ∧
    (execute_sql_query true store0 "insert into t (a, b) values (a.b, -5)").2 =
      [StoreCall.insert "t" [("a", Value.str "a.b"), ("b", Value.int (-5))]] := by
  refine ⟨rfl, rfl, rfl, rfl⟩

/-- C3 (amended): a value token decodes as NULL in any case to null; a
token in matching single or double quotes to the inner text; an
all-digit token to its integer; otherwise a dot-containing token to a
float exactly when Python float() accepts it, else the raw string; and
a dot-free token to an integer exactly when Python int() accepts it
(signed forms included), else the raw string. -/
theorem c3_amended (v : String) :
    ((ucList v.data == "NULL".data) = true → decodeValueToken v = Value.null) ∧
    ((ucList v.data == "NULL".data) = false →
      (headIs v.data squoteChar && lastIs v.data squoteChar ||
        headIs v.data dquoteChar && lastIs v.data dquoteChar) = true →
      decodeValueToken v = Value.str (String.mk (pySlice1m1 v.data))) ∧
    (pyIsdigit v.data = true → decodeValueToken v = Value.int ((natOfDigits v.data : Nat) : Int)) ∧
    ((ucList v.data == "NULL".data) = false →
      (headIs v.data squoteChar && lastIs v.data squoteChar ||
        headIs v.data dquoteChar && lastIs v.data dquoteChar) = false →
      v.data.contains '.' = true → pyFloatOk v.data = true →
      decodeValueToken v = Value.float v) ∧
    ((ucList v.data == "NULL".data) = false →
      (headIs v.data squoteChar && lastIs v.data squoteChar ||
        headIs v.data dquoteChar && lastIs v.data dquoteChar) = false →
      v.data.contains '.' = true → pyFloatOk v.data = false →
      decodeValueToken v = Value.str v) ∧
    (∀ n : Int, (ucList v.data == "NULL".data) = false →
      (headIs v.data squoteChar && lastIs v.data squoteChar ||
        headIs v.data dquoteChar && lastIs v.data dquoteChar) = false →
      v.data.contains '.' = false → pyIntOpt v.data = some n →
      decodeValueToken v = Value.int n) ∧
    ((ucList v.data == "NULL".data) = false →
      (headIs v.data squoteChar && lastIs v.data squoteChar ||
        headIs v.data dquoteChar && lastIs v.data dquoteChar) = false →
      v.data.contains '.' = false → pyIntOpt v.data = none →
      decodeValueToken v = Value.str v) := by
  refine ⟨fun h1 => by simp only [decodeValueToken, h1, if_true],
    fun h1 h2 => by simp only [decodeValueToken, h1, h2, Bool.false_eq_true, if_false, if_true],
    fun h => decode_all_digit h,
    fun h1 h2 h3 h4 => by
      simp only [decodeValueToken, h1, h2, h3, h4, Bool.false_eq_true, if_false, if_true],
    fun h1 h2 h3 h4 => by
      simp only [decodeValueToken, h1, h2, h3, h4, Bool.false_eq_true, if_false, if_true],
    fun n h1 h2 h3 h4 => by
      simp only [decodeValueToken, h1, h2, h3, h4, Bool.false_eq_true, if_false],
    fun h1 h2 h3 h4 => by
      simp only [decodeValueToken, h1, h2, h3, h4, Bool.false_eq_true, if_false]⟩

/-- C3 (amended), witness: an all-digit token and a quoted token. -/
theorem c3_amended_witness :
    decodeValueToken "123" = Value.int 123 ∧ decodeValueToken "\x27ab\x27" = Value.str "ab" :=
  ⟨(c3_amended "123").2.2.1 (by decide),
   (c3_amended "\x27ab\x27").2.1 (by decide) (by decide)⟩

/-- C4: the WHERE equality token of an UPDATE or DELETE is decoded by
dequoting a single-quoted token, parsing an all-digit token as an
integer, and keeping anything else as the raw string; and the statement
delete-from-customers-where-id-eq-7 issues exactly one structured
delete with the predicate id equal to the integer 7, never a raw RPC,
whatever the store answers. -/
theorem c4_predicate_decode :
    (∀ v : String, (headIs v.data squoteChar && lastIs v.data squoteChar) = true →
      decodeWhereValue v = Value.str (String.mk (pySlice1m1 v.data))) ∧
    (∀ v : String, (headIs v.data squoteChar && lastIs v.data squoteChar) = false →
      pyIsdigit v.data = true → decodeWhereValue v = Value.int ((natOfDigits v.data : Nat) : Int)) ∧
    (∀ v : String, (headIs v.data squoteChar && lastIs v.data squoteChar) = false →
      pyIsdigit v.data = false → decodeWhereValue v = Value.str v) ∧
    (∀ store : Store, (execute_sql_query true store "delete from customers where id = 7").2 =
      [StoreCall.delete "customers" "id" (Value.int 7)]) := by
  refine ⟨fun v h1 => by simp only [decodeWhereValue, h1, if_true],
    fun v h1 h2 => by simp only [decodeWhereValue, h1, h2, Bool.false_eq_true, if_false, if_true],
    fun v h1 h2 => by simp only [decodeWhereValue, h1, h2, Bool.false_eq_true, if_false],
    fun store => rfl⟩

/-- C4, witness: an all-digit predicate token and the delete scenario. -/
theorem c4_witness :
    decodeWhereValue "7" = Value.int 7 ∧
    (execute_sql_query true store0 "delete from customers where id = 7").2 =
      [StoreCall.delete "customers" "id" (Value.int 7)] :=
  ⟨c4_predicate_decode.2.1 "7" (by decide) (by decide), c4_predicate_decode.2.2.2 store0⟩

/-- C5: when the primary structured discovery raises, the secondary
raw-query discovery returns empty data, and the tertiary raw-query
variant returns rows, the fetch returns the mapping built solely from
the tertiary rows, grouped by table name in first-seen order. -/
theorem c5_schema_fallback (store : SchemaStore) (e1 : String) (rows : List SchemaRow)
    (h1 : store.rpcRes "get_table_schema" none = .error e1)
    (h2 : store.rpcRes "run_sql_query" (some schemaQuery) = .ok ⟨some []⟩)
    (h3 : store.rpcRes "run_sql" (some schemaQuery) = .ok ⟨some rows⟩)
    (hne : rows ≠ []) :
    get_supabase_schema true store = .schema (buildSchema rows) := by
  unfold get_supabase_schema schemaFallback
  rw [h1, h2, h3]
  cases rows with
  | nil => exact absurd rfl hne
  | cons r rs => simp

/-- C5, witness on a concrete three-tier store. -/
theorem c5_witness :
    get_supabase_schema true schemaStore1 = .schema [("customers", ["id"])] :=
  c5_schema_fallback schemaStore1 "boom" [⟨"customers", "id"⟩] rfl rfl rfl (by simp)

/-- C7: whenever synthesis yields an error, the orchestrator returns
that error with an absent SQL statement, attempts no execution, and
leaves the whole session state — history included — unchanged. -/
theorem c7_synthesis_error (st : SessionState) (gemini : String → Except String GeminiResponse)
    (store : Store) (input m : String)
    (hconn : st.connected = true)
    (hsynth : nl_to_sql_gemini st.connected st.schema_data input gemini = .err m) :
    handle_database_query st gemini store input = (.pair (.error m) none, st, []) := by
  unfold handle_database_query
  rw [hconn] at hsynth ⊢
  rw [hsynth]
  rfl

/-- C7, witness: a 500 status from the generation endpoint. -/
theorem c7_witness :
    handle_database_query st1 gem500 store0 "hi" =
      (.pair (.error "Gemini API error: boom") none, st1, []) :=
  c7_synthesis_error st1 gem500 store0 "hi" "Gemini API error: boom" rfl rfl

/-- C10: whenever synthesis returns a SQL string, the orchestrator
appends exactly one history entry carrying the input, the statement and
the execution result — also when that result is an error — keeping all
earlier entries, the schema data and the connection flag unchanged, and
returns the result with the statement. -/
theorem c10_history_append (st : SessionState) (gemini : String → Except String GeminiResponse)
    (store : Store) (input s : String)
    (hconn : st.connected = true)
    (hsynth : nl_to_sql_gemini st.connected st.schema_data input gemini = .sql s) :
    handle_database_query st gemini store input =
      (.pair (execute_sql_query st.connected store s).1 (some s),
       ⟨st.connected, st.schema_data,
        st.query_history ++ [⟨input, s, (execute_sql_query st.connected store s).1⟩]⟩,
       (execute_sql_query st.connected store s).2) := by
  unfold handle_database_query
  rw [hconn] at hsynth ⊢
  rw [hsynth]
  rfl

/-- C10, witness: a synthesized SELECT recorded once in the history. -/
theorem c10_witness :
    handle_database_query st1 gemSelect store0 "q" =
      (.pair (.rows []) (some "SELECT 1"),
       ⟨true, none, [⟨"q", "SELECT 1", .rows []⟩]⟩,
       [.rpc "run_sql_query" "SELECT 1"]) := by
  have h := c10_history_append st1 gemSelect store0 "q" "SELECT 1" rfl rfl
  exact h

/-- C8: on raw-execution success (rpc returned, no error attribute): row
data comes back as a RowSet; a present-but-empty data attribute yields
the success StatusMessage naming the first DML keyword in the priority
order insert, update, delete when the statement text contains one, and
the empty RowSet otherwise; a missing data attribute yields the Warning;
and the empty RowSet and the Warning are distinct outcomes. -/
theorem c8_raw_result (store : Store) (q : String) (resp : DbResponse)
    (hni : lpfx "insert into".data (lcList (pyNormalize q)) = false)
    (hnu : lpfx "update".data (lcList (pyNormalize q)) = false)
    (hnd : lpfx "delete from".data (lcList (pyNormalize q)) = false)
    (hrpc : store.rpcRes "run_sql_query" (String.mk (pyNormalize q)) = Except.ok resp)
    (herr : resp.error = none) :
    (∀ r rs, resp.data = some (r :: rs) →
      execute_sql_query true store q =
        (.rows (r :: rs), [.rpc "run_sql_query" (String.mk (pyNormalize q))])) ∧
    (resp.data = some [] →
      (containsSeq (lcList (pyNormalize q)) "insert".data ||
        containsSeq (lcList (pyNormalize q)) "update".data ||
        containsSeq (lcList (pyNormalize q)) "delete".data) = true →
      execute_sql_query true store q =
        (.message ("The " ++ rawOpName (lcList (pyNormalize q)) ++ " operation was executed successfully")
          true none,
         [.rpc "run_sql_query" (String.mk (pyNormalize q))])) ∧
    (resp.data = some [] →
      (containsSeq (lcList (pyNormalize q)) "insert".data ||
        containsSeq (lcList (pyNormalize q)) "update".data ||
        containsSeq (lcList (pyNormalize q)) "delete".data) = false →
      execute_sql_query true store q =
        (.rows [], [.rpc "run_sql_query" (String.mk (pyNormalize q))])) ∧
    (resp.data = none →
      execute_sql_query true store q =
        (.warning "Query executed but returned no data attribute",
         [.rpc "run_sql_query" (String.mk (pyNormalize q))])) ∧
    (∀ m, QueryResult.rows [] ≠ QueryResult.warning m) := by
  have hex : execute_sql_query true store q =
      (rawRespond (lcList (pyNormalize q)) resp,
       [.rpc "run_sql_query" (String.mk (pyNormalize q))]) := by
    simp only [execute_sql_query, Bool.not_true, hni, hnu, hnd, Bool.false_eq_true, if_false]
    simp only [rawPath]
    rw [hrpc]
  refine ⟨?_, ?_, ?_, ?_, ?_⟩
  · intro r rs hd
    rw [hex]
    unfold rawRespond
    rw [herr, hd]
  · intro hd hdml
    rw [hex]
    unfold rawRespond
    rw [herr, hd]
    simp only [hdml, if_true]
  · intro hd hdml
    rw [hex]
    unfold rawRespond
    rw [herr, hd]
    simp only [hdml, Bool.false_eq_true, if_false]
  · intro hd
    rw [hex]
    unfold rawRespond
    rw [herr, hd]
  · intro m h
    exact QueryResult.noConfusion h

/-- C8, witness: a plain select returning one row. -/
theorem c8_witness :
    execute_sql_query true storeRows "select 1" =
      (.rows [[("test", Value.int 1)]], [.rpc "run_sql_query" "select 1"]) :=
  (c8_raw_result storeRows "select 1" ⟨none, some [[("test", Value.int 1)]]⟩
    (by decide) (by decide) (by decide) rfl rfl).1 [("test", Value.int 1)] [] rfl

theorem zip_take_self {α β : Type} : ∀ (as : List α) (bs : List β),
    as.zip bs = as.zip (bs.take as.length)
  | [], _ => rfl
  | _ :: _, [] => rfl
  | a :: as, b :: bs => by
    simp only [List.zip_cons_cons, List.length_cons, List.take_succ_cons]
    rw [← zip_take_self as bs]

theorem buildInsertData_zip (cols vals : List String) (acc : List (String × Value))
    (h : cols.length ≤ vals.length) :
    buildInsertData acc cols vals =
      .ok ((cols.zip vals).foldl (fun a p => dictSet a p.1 (decodeValueToken p.2)) acc) := by
  induction cols generalizing vals acc with
  | nil => simp [buildInsertData]
  | cons c cs ih =>
    cases vals with
    | nil => simp at h
    | cons v vs =>
      simp only [buildInsertData, List.zip_cons_cons, List.foldl_cons]
      exact ih vs _ (by simpa using h)

/-- C9: for an INSERT that matches the structured pattern with at least
as many value tokens as columns, the loop succeeds, each listed column
is paired with the value token at its position — the pairing depends
only on the first columns-many value tokens, surplus trailing tokens
being silently discarded — and the executor issues exactly that one
structured insert, its result coming solely from the store's response. -/
theorem c9_surplus_values (q : String) (store : Store) (table : String) (colsCs valsCs : List Char)
    (hpre : lpfx "insert into".data (lcList (pyNormalize q)) = true)
    (hparse : parseInsert (pyNormalize q) = some (table, colsCs, valsCs))
    (hlen : (splitStripped colsCs).length ≤ (splitStripped valsCs).length) :
    buildInsertData [] (splitStripped colsCs) (splitStripped valsCs) =
      .ok (zipInsertData (splitStripped colsCs) (splitStripped valsCs)) ∧
    zipInsertData (splitStripped colsCs) (splitStripped valsCs) =
      zipInsertData (splitStripped colsCs)
        ((splitStripped valsCs).take (splitStripped colsCs).length) ∧
    execute_sql_query true store q =
      (insertRespond
        (store.insertRes table (zipInsertData (splitStripped colsCs) (splitStripped valsCs))),
       [.insert table (zipInsertData (splitStripped colsCs) (splitStripped valsCs))]) := by
  have hb := buildInsertData_zip (splitStripped colsCs) (splitStripped valsCs) [] hlen
  refine ⟨hb, ?_, ?_⟩
  · unfold zipInsertData
    rw [← zip_take_self]
  · simp only [execute_sql_query, Bool.not_true, Bool.false_eq_true, if_false, hpre, if_true,
      hparse, hb, zipInsertData]

/-- C9, witness: one column, two value tokens, the second discarded. -/
theorem c9_witness :
    execute_sql_query true store0 "insert into t (a) values (1, 2)" =
      (.rows [], [.insert "t" [("a", Value.int 1)]]) := by
  have h := (c9_surplus_values "insert into t (a) values (1, 2)" store0 "t" "a".data "1, 2".data
    (by decide) (by decide) (by decide)).2.2
  exact h

theorem findKwSuffix_eq_find (t : List Char) :
    findKwSuffix t =
      ((List.range t.length).find? (fun i => kwHead (t.drop i))).map (t.drop ·) := by
  induction t with
  | nil => rfl
  | cons c u ih =>
    rw [List.length_cons, List.range_succ_eq_map, List.find?_cons]
    by_cases h : kwHead (c :: u) = true
    · simp only [findKwSuffix, h, if_true, List.drop_zero]
      rfl
    · have hf : kwHead (c :: u) = false := by simpa using h
      simp only [findKwSuffix, hf, Bool.false_eq_true, if_false, List.drop_zero]
      rw [ih, List.find?_map, Option.map_map]
      have hp : ((fun i => kwHead (List.drop i (c :: u))) ∘ (fun i => i + 1)) =
          (fun i => kwHead (List.drop i u)) := by
        funext i
        simp [Function.comp, List.drop_succ_cons]
      have hd : ((fun x => List.drop x (c :: u)) ∘ (fun i => i + 1)) =
          (fun x => List.drop x u) := by
        funext i
        simp [Function.comp, List.drop_succ_cons]
      rw [hp, hd]

theorem extract_eq_specC6 (c : String) : extract_sql_text c = specExtractC6 c := by
  simp only [extract_sql_text, specExtractC6]
  rw [findKwSuffix_eq_find]
  cases hfind : (List.range (fenceStrip c).length).find? (fun i => kwHead ((fenceStrip c).drop i)) with
  | none => rfl
  | some i => rfl

/-- C6: for every successful generation response with at least one
candidate, the synthesizer returns the first candidate's fence-stripped
trimmed text taken from the first (least-index) case-insensitive
occurrence of SELECT/INSERT/UPDATE/DELETE to the end, trimmed; and the
trimmed fence-stripped text unchanged when no keyword occurs. -/
theorem c6_extraction (schema_data : Option SchemaFetchResult) (prompt : String)
    (gemini : String → Except String GeminiResponse) (resp : GeminiResponse)
    (c : String) (rest : List String)
    (hok : gemini (composeRefinedPrompt schema_data prompt) = .ok resp)
    (hstatus : resp.status_code = 200)
    (hcand : resp.candidates = c :: rest) :
    nl_to_sql_gemini true schema_data prompt gemini = .sql (specExtractC6 c) := by
  unfold nl_to_sql_gemini
  rw [hok]
  dsimp only
  rw [hstatus, hcand]
  simp only [Bool.not_true, Bool.false_eq_true, if_false, beq_self_eq_true, if_true]
  rw [extract_eq_specC6]

/-- C6, witness: a fenced SELECT candidate. -/
theorem c6_witness :
    nl_to_sql_gemini true none "show" gemSelect = .sql "SELECT 1" := by
  rw [c6_extraction none "show" gemSelect ⟨200, "", ["```sql\nSELECT 1\n```"]⟩
    "```sql\nSELECT 1\n```" [] rfl rfl rfl]
  rfl
